import Mathlib

/-!
# Verification of the PublicSchoolData preparation pipeline

Shallow embedding of `src/data_preparation.py`. Tables are modelled as
dataframes whose rows are association lists from column names to cell
values; a cell is a missing marker (`Val.na`, pandas `NaN`), a rational
number (`Val.num`, pandas numeric values), or a string (`Val.str`).
Each pipeline stage of the source is translated one-to-one:

* `clean_datasets`   — column drop / selection and placeholder replacement
  (lines 106-136 of the source; pandas `drop`, `[[...]]`, `replace`);
* `handle_missing_values` — NaN→0 replacement in the socioeconomic table
  and column-mean fill in the expenditure/salary tables (lines 138-161);
* `convert_data_types` — `pd.to_numeric(errors='coerce')` per column
  (lines 163-198);
* `merge_datasets`   — four inner joins on `CDSCODE` followed by `dropna`
  (lines 200-245);
* `normalize_columns` — scikit-learn `MinMaxScaler` (lines 247-267): the
  scaler rejects empty input and non-numeric cells, ignores the feature
  range degenerate case by replacing a zero range with 1;
* `load_data`        — the orchestration (lines 269-316) whose catch-all
  `except Exception` turns every stage error into a `None` result; its
  input is the outcome of `load_raw_datasets` (file I/O), modelled as an
  `Except` value: `Except.error` is a raised loader exception such as
  `FileNotFoundError`, `Except.ok` the five loaded raw tables;
* `validate_final_dataset` — the final validator (lines 318-350).
-/

namespace PSD

/-- A cell value: missing marker (pandas `NaN`), numeric, or string. -/
inductive Val where
  | na : Val
  | num : ℚ → Val
  | str : String → Val
deriving DecidableEq, Repr

/-- A row is an association list from column names to cell values. -/
abbrev Row := List (String × Val)

/-- A dataframe: a list of column names and a list of rows.  Well-formed
frames have each row's keys equal to `cols`; operations keep this. -/
structure DataFrame where
  cols : List String
  rows : List Row
deriving DecidableEq, Repr

/-- The five raw tables handled by the pipeline, as returned by
`load_raw_datasets` (column names already upper-cased). -/
structure Datasets where
  expenditure : DataFrame
  salary : DataFrame
  test_scores : DataFrame
  chronic_absence : DataFrame
  socioeconomic : DataFrame
deriving DecidableEq, Repr

/-- Look up the value of column `c` in a row (first match, like a
well-formed pandas row access). -/
def findCol (c : String) : Row → Option Val
  | [] => none
  | p :: r => if p.1 = c then some p.2 else findCol c r

/-- `df[cs]` row projection: build the row holding exactly columns `cs`. -/
def selectRow (cs : List String) (r : Row) : Row :=
  cs.map (fun c => (c, (findCol c r).getD Val.na))

/-- pandas `df[[cs]]` on a frame known to contain all of `cs`. -/
def selectColsU (cs : List String) (df : DataFrame) : DataFrame :=
  ⟨cs, df.rows.map (selectRow cs)⟩

/-- Remove the columns in `cs` from a row (pandas `drop(columns)`). -/
def dropRowCols (cs : List String) (r : Row) : Row :=
  r.filter (fun p => decide (p.1 ∉ cs))

/-- pandas `df.drop(cs, axis=1)` on a frame known to contain all of `cs`. -/
def dropColsU (cs : List String) (df : DataFrame) : DataFrame :=
  ⟨df.cols.filter (fun c => decide (c ∉ cs)), df.rows.map (dropRowCols cs)⟩

/-- One cell of pandas `replace(targets, newVal)`. -/
def replaceCell (targets : List Val) (newVal : Val) (v : Val) : Val :=
  if v ∈ targets then newVal else v

/-- pandas `replace(targets, newVal)` on one row. -/
def replaceRow (targets : List Val) (newVal : Val) (r : Row) : Row :=
  r.map (fun p => (p.1, replaceCell targets newVal p.2))

/-- pandas `df.replace(targets, newVal)` (applies to every column). -/
def replaceVals (targets : List Val) (newVal : Val) (df : DataFrame) : DataFrame :=
  ⟨df.cols, df.rows.map (replaceRow targets newVal)⟩

/-- Digit string to natural number (no validation). -/
def natOfDigits (cs : List Char) : ℕ :=
  cs.foldl (fun n c => n * 10 + (c.toNat - 48)) 0

/-- Parse an unsigned decimal literal split at the decimal point. -/
def parseNumCore (ip fp : List Char) : Option ℚ :=
  if ip.all Char.isDigit && fp.all Char.isDigit && (!ip.isEmpty || !fp.isEmpty) then
    some ((natOfDigits ip : ℚ) + (natOfDigits fp : ℚ) / ((10 : ℚ) ^ fp.length))
  else none

/-- Numeric parsing of a string cell, as used by `pd.to_numeric`: optional
sign, decimal digits, optional fractional part.  Anything else (for
example `"--"` or `"abc"`) fails to parse. -/
def parseNum (s : String) : Option ℚ :=
  let l := s.toList
  let signed : Bool × List Char :=
    match l with
    | '-' :: t => (true, t)
    | '+' :: t => (false, t)
    | _ => (false, l)
  let core : Option ℚ :=
    match signed.2.splitOn '.' with
    | [ip] => parseNumCore ip []
    | [ip, fp] => parseNumCore ip fp
    | _ => none
  core.map (fun q => if signed.1 then -q else q)

/-- One cell of `pd.to_numeric(errors='coerce')`: numbers survive, `NaN`
stays `NaN`, an unparseable string becomes `NaN`. -/
def toNumericCell : Val → Val
  | Val.na => Val.na
  | Val.num q => Val.num q
  | Val.str s =>
    match parseNum s with
    | some q => Val.num q
    | none => Val.na

/-- Coerce the cell when its column is listed (else leave it). -/
def coerceCell (cs : List String) (c : String) (v : Val) : Val :=
  if c ∈ cs then toNumericCell v else v

/-- `pd.to_numeric(errors='coerce')` applied to the listed columns of a row. -/
def coerceRow (cs : List String) (r : Row) : Row :=
  r.map (fun p => (p.1, coerceCell cs p.1 p.2))

/-- `pd.to_numeric(errors='coerce')` applied to the listed columns. -/
def coerceColsU (cs : List String) (df : DataFrame) : DataFrame :=
  ⟨df.cols, df.rows.map (coerceRow cs)⟩

/-- `true` unless the cell is a string (a missing column entry counts as
`NaN`, which pandas treats as numeric for dtype purposes). -/
def cellNotStr : Val → Bool
  | Val.str _ => false
  | _ => true

/-- A column counts as numeric-dtyped when no row holds a string in it;
`df.mean(numeric_only=True)` only covers such columns, and
`MinMaxScaler` rejects any other column. -/
def isNumericCol (df : DataFrame) (c : String) : Bool :=
  df.rows.all (fun r => cellNotStr ((findCol c r).getD Val.na))

/-- The non-missing numeric values of column `c`. -/
def colNums (df : DataFrame) (c : String) : List ℚ :=
  df.rows.filterMap (fun r =>
    match findCol c r with
    | some (Val.num q) => some q
    | _ => none)

/-- The mean of a column over its non-missing values (`none` when no
value exists, in which case pandas fills with `NaN`, a no-op). -/
def colMean (df : DataFrame) (c : String) : Option ℚ :=
  match colNums df c with
  | [] => none
  | l => some (l.sum / l.length)

/-- One cell of `df.fillna(df.mean(numeric_only=True))`: only missing
cells of numeric-dtyped columns receive the column mean. -/
def fillCell (df : DataFrame) (c : String) (v : Val) : Val :=
  match v with
  | Val.na =>
    if isNumericCol df c then
      match colMean df c with
      | some m => Val.num m
      | none => Val.na
    else Val.na
  | v => v

/-- `fillna(mean)` on one row (the statistics come from the whole frame). -/
def fillRow (df : DataFrame) (r : Row) : Row :=
  r.map (fun p => (p.1, fillCell df p.1 p.2))

/-- `df.fillna(df.mean(numeric_only=True))`. -/
def fillnaMean (df : DataFrame) : DataFrame :=
  ⟨df.cols, df.rows.map (fillRow df)⟩

/-! ### Pipeline column lists (from the source) -/

/-- Columns dropped from the expenditure table (line 118). -/
def expDropCols : List String := ["SARCYEAR", "C", "D", "S", "STEXP"]

/-- Salary columns kept (line 121). -/
def salaryCols : List String := ["CDSCODE", "BTCHSAL", "MTCHSAL", "HTCHSAL"]

/-- Test-score columns kept (line 122). -/
def testScoreCols : List String := ["CDSCODE", "SELA_Y2", "SMATH_Y2", "DELA_Y2", "DMATH_Y2"]

/-- Chronic-absence columns kept (line 123). -/
def chronicCols : List String := ["CDSCODE", "RALL", "REL", "RSED"]

/-- Placeholder tokens treated as missing in the test-score table (line 126). -/
def tsMissingTokens : List Val := [Val.str "--", Val.str "0"]

/-- Expenditure columns converted to numeric (lines 190-191). -/
def expNumCols : List String := ["DSAL", "STSAL"]

/-- Salary columns converted to numeric (line 179). -/
def salaryNumCols : List String := ["BTCHSAL", "MTCHSAL", "HTCHSAL"]

/-- Test-score columns converted to numeric (line 175). -/
def testNumCols : List String := ["SELA_Y2", "SMATH_Y2", "DELA_Y2", "DMATH_Y2"]

/-- Chronic-absence columns converted to numeric (line 183). -/
def chronicNumCols : List String := ["RALL", "REL", "RSED"]

/-- Columns min-max normalized by `load_data` (line 293). -/
def normTargetCols : List String := ["DSAL", "STSAL", "BTCHSAL", "MTCHSAL", "HTCHSAL"]

/-- `clean_datasets` (lines 106-136): drop a fixed list from the
expenditure table (pandas raises `KeyError` when one is absent), select
allow-lists in the salary / test-score / chronic-absence tables (pandas
raises `KeyError` when a listed column is absent), and replace the
placeholders `"--"`, `"0"` by `NaN` throughout the test-score table.  The
raised `KeyError` is the `Except.error` case. -/
def clean_datasets (ds : Datasets) : Except String Datasets :=
  if (∀ c ∈ expDropCols, c ∈ ds.expenditure.cols)
     ∧ (∀ c ∈ salaryCols, c ∈ ds.salary.cols)
     ∧ (∀ c ∈ testScoreCols, c ∈ ds.test_scores.cols)
     ∧ (∀ c ∈ chronicCols, c ∈ ds.chronic_absence.cols) then
    Except.ok
      { expenditure := dropColsU expDropCols ds.expenditure
        salary := selectColsU salaryCols ds.salary
        test_scores := replaceVals tsMissingTokens Val.na (selectColsU testScoreCols ds.test_scores)
        chronic_absence := selectColsU chronicCols ds.chronic_absence
        socioeconomic := ds.socioeconomic }
  else Except.error "KeyError"

/-- `handle_missing_values` (lines 138-161): missing socioeconomic cells
become 0, expenditure and salary missing cells are filled with their
column mean. -/
def handle_missing_values (ds : Datasets) : Datasets :=
  { ds with
    expenditure := fillnaMean ds.expenditure
    salary := fillnaMean ds.salary
    socioeconomic := replaceVals [Val.na] (Val.num 0) ds.socioeconomic }

/-- `convert_data_types` (lines 163-198): `pd.to_numeric(errors='coerce')`
on each table's analytic columns.  Reading a missing column raises
`KeyError` (the `Except.error` case). -/
def convert_data_types (ds : Datasets) : Except String Datasets :=
  if (∀ c ∈ testNumCols, c ∈ ds.test_scores.cols)
     ∧ (∀ c ∈ salaryNumCols, c ∈ ds.salary.cols)
     ∧ (∀ c ∈ chronicNumCols, c ∈ ds.chronic_absence.cols)
     ∧ ("PERSD" ∈ ds.socioeconomic.cols)
     ∧ (∀ c ∈ expNumCols, c ∈ ds.expenditure.cols) then
    Except.ok
      { expenditure := coerceColsU expNumCols ds.expenditure
        salary := coerceColsU salaryNumCols ds.salary
        test_scores := coerceColsU testNumCols ds.test_scores
        chronic_absence := coerceColsU chronicNumCols ds.chronic_absence
        socioeconomic := coerceColsU ["PERSD"] ds.socioeconomic }
  else Except.error "KeyError"

/-- The join key of a row. -/
def keyOf (r : Row) : Option Val := findCol "CDSCODE" r

/-- Remove the key column from the right operand of a join. -/
def stripKey (r : Row) : Row :=
  r.filter (fun p => decide (p.1 ≠ "CDSCODE"))

/-- Inner join of two row lists on `CDSCODE` in pandas `merge` order:
for each left row in order, every matching right row in order. -/
def joinRows : List Row → List Row → List Row
  | [], _ => []
  | r1 :: t, rows2 =>
    ((rows2.filter (fun r2 => decide (keyOf r2 = keyOf r1))).map
      (fun r2 => r1 ++ stripKey r2)) ++ joinRows t rows2

/-- Columns of a merge result: left columns then the non-key right columns. -/
def mergeCols (cols1 cols2 : List String) : List String :=
  cols1 ++ cols2.filter (fun c => decide (c ≠ "CDSCODE"))

/-- pandas `df1.merge(df2, on='CDSCODE', how='inner')`. -/
def mergeOn (df1 df2 : DataFrame) : DataFrame :=
  ⟨mergeCols df1.cols df2.cols, joinRows df1.rows df2.rows⟩

/-- A row with no missing cell (what pandas `dropna` keeps). -/
def rowComplete (r : Row) : Bool :=
  r.all (fun p => decide (p.2 ≠ Val.na))

/-- pandas `df.dropna()`: keep only the rows with no missing cell. -/
def dropna (df : DataFrame) : DataFrame :=
  ⟨df.cols, df.rows.filter rowComplete⟩

/-- Rows after the first join (expenditure ⋈ salary, line 216). -/
def mergedRows1 (ds : Datasets) : List Row :=
  joinRows ds.expenditure.rows ds.salary.rows

/-- Rows after the second join (⋈ test-scores, line 219). -/
def mergedRows2 (ds : Datasets) : List Row :=
  joinRows (mergedRows1 ds) ds.test_scores.rows

/-- Rows after the third join (⋈ socioeconomic, line 222). -/
def mergedRows3 (ds : Datasets) : List Row :=
  joinRows (mergedRows2 ds) ds.socioeconomic.rows

/-- Rows after the fourth join (⋈ chronic-absence, line 225). -/
def mergedRows4 (ds : Datasets) : List Row :=
  joinRows (mergedRows3 ds) ds.chronic_absence.rows

/-- `merge_datasets` (lines 200-245): the four inner joins on `CDSCODE`
followed by `dropna`.  pandas raises `KeyError` when an operand lacks the
key column (the `Except.error` case). -/
def merge_datasets (ds : Datasets) : Except String DataFrame :=
  if ("CDSCODE" ∈ ds.expenditure.cols) ∧ ("CDSCODE" ∈ ds.salary.cols)
     ∧ ("CDSCODE" ∈ ds.test_scores.cols) ∧ ("CDSCODE" ∈ ds.socioeconomic.cols)
     ∧ ("CDSCODE" ∈ ds.chronic_absence.cols) then
    Except.ok (dropna
      (mergeOn (mergeOn (mergeOn (mergeOn ds.expenditure ds.salary)
        ds.test_scores) ds.socioeconomic) ds.chronic_absence))
  else Except.error "KeyError"

/-- Fold-based minimum with default 0 for the empty list (`MinMaxScaler`
`data_min_`; only applied to nonempty columns). -/
def minD : List ℚ → ℚ
  | [] => 0
  | q :: t => t.foldl min q

/-- Fold-based maximum with default 0 (`MinMaxScaler` `data_max_`). -/
def maxD : List ℚ → ℚ
  | [] => 0
  | q :: t => t.foldl max q

/-- `MinMaxScaler`'s divisor: a zero range is replaced by 1
(`sklearn` `_handle_zeros_in_scale`), so constant columns map to 0
instead of dividing by zero. -/
def scaleDenom (lo hi : ℚ) : ℚ := if hi = lo then 1 else hi - lo

/-- Min-max scale one numeric cell; missing cells pass through unchanged
(the scaler ignores `NaN` in fit and propagates it in transform). -/
def scaleCell (lo hi : ℚ) : Val → Val
  | Val.num q => Val.num ((q - lo) / scaleDenom lo hi)
  | v => v

/-- One cell of `normalize_columns`: scale when the column is listed. -/
def normCell (df : DataFrame) (cs : List String) (c : String) (v : Val) : Val :=
  if c ∈ cs then scaleCell (minD (colNums df c)) (maxD (colNums df c)) v else v

/-- Min-max scaling of the listed columns of one row, statistics taken
over the whole frame `df`. -/
def normRow (df : DataFrame) (cs : List String) (r : Row) : Row :=
  r.map (fun p => (p.1, normCell df cs p.1 p.2))

/-- `normalize_columns` (lines 247-267): `MinMaxScaler().fit_transform`
on the listed columns.  pandas raises `KeyError` on a missing column;
the scaler raises `ValueError` on an empty frame (0 samples) and on
string cells.  All raised errors are the `Except.error` case. -/
def normalize_columns (df : DataFrame) (cs : List String) : Except String DataFrame :=
  if ¬ (∀ c ∈ cs, c ∈ df.cols) then Except.error "KeyError"
  else if df.rows.length = 0 then Except.error "ValueError: 0 samples"
  else if ¬ (∀ c ∈ cs, isNumericCol df c = true) then
    Except.error "ValueError: could not convert string to float"
  else Except.ok ⟨df.cols, df.rows.map (normRow df cs)⟩

/-- One cell of the final verification loop (lines 296-299): every
column other than `CDSCODE` is re-coerced with
`pd.to_numeric(errors='coerce')`. -/
def finalCell (c : String) (v : Val) : Val :=
  if c = "CDSCODE" then v else toNumericCell v

/-- The final verification loop on one row. -/
def finalCoerceRow (r : Row) : Row :=
  r.map (fun p => (p.1, finalCell p.1 p.2))

/-- The final verification loop (lines 296-299) on the merged frame. -/
def finalCoerce (df : DataFrame) : DataFrame :=
  ⟨df.cols, df.rows.map finalCoerceRow⟩

/-- The stage composition inside `load_data`'s `try` block, from the
loaded raw tables to the frame of line 299; each stage error propagates
(to be caught by `load_data`'s catch-all handler). -/
def runPipeline (ds : Datasets) : Except String DataFrame :=
  match clean_datasets ds with
  | Except.error e => Except.error e
  | Except.ok ds1 =>
    match convert_data_types (handle_missing_values ds1) with
    | Except.error e => Except.error e
    | Except.ok ds2 =>
      match merge_datasets ds2 with
      | Except.error e => Except.error e
      | Except.ok m =>
        match normalize_columns m normTargetCols with
        | Except.error e => Except.error e
        | Except.ok m2 => Except.ok (finalCoerce m2)

/-- `load_data` (lines 269-316).  Its input is the outcome of
`load_raw_datasets`: `Except.error` for a raised loader exception (for
example `FileNotFoundError` for a missing input file), `Except.ok` for
the five loaded tables.  The catch-all `except Exception` (lines
313-316) converts every raised error into the result `none`; an empty
final frame also yields `none` (lines 301-304); the summary logging of
lines 308-309 raises `KeyError` (again caught, giving `none`) when the
`PERSD` or `SMATH_Y2` column is absent. -/
def load_data (inp : Except String Datasets) : Option DataFrame :=
  match inp with
  | Except.error _ => none
  | Except.ok ds =>
    match runPipeline ds with
    | Except.error _ => none
    | Except.ok df =>
      if df.rows.length = 0 then none
      else if ("PERSD" ∈ df.cols) ∧ ("SMATH_Y2" ∈ df.cols) then some df
      else none

/-- The validator's required columns (line 335). -/
def requiredColumns : List String :=
  ["CDSCODE", "PERSD", "SMATH_Y2", "SELA_Y2", "HTCHSAL", "RALL"]

/-- `df.isnull().any().any()`: some cell somewhere is missing. -/
def hasMissing (df : DataFrame) : Bool :=
  df.rows.any (fun r => r.any (fun p => decide (p.2 = Val.na)))

/-- `validate_final_dataset` (lines 318-350): fail on any missing value,
fail on an absent required column; the minimum-size check of line 342
only logs a warning and does not affect the verdict. -/
def validate_final_dataset (df : DataFrame) : Bool :=
  if hasMissing df then false
  else if ¬ (∀ c ∈ requiredColumns, c ∈ df.cols) then false
  else true

/-- Extract the frame of a successful stage result (dummy on error);
used to name concrete stage outputs in example runs. -/
def okFrame (x : Except String DataFrame) : DataFrame :=
  match x with
  | Except.ok df => df
  | Except.error _ => ⟨[], []⟩

/-- Extract the tables of a successful stage result (dummy on error). -/
def okDatasets (x : Except String Datasets) : Datasets :=
  match x with
  | Except.ok ds => ds
  | Except.error _ => ⟨⟨[], []⟩, ⟨[], []⟩, ⟨[], []⟩, ⟨[], []⟩, ⟨[], []⟩⟩

/-! ### Generic lemmas about rows and lookups -/

theorem findCol_mem {c : String} {v : Val} : ∀ {r : Row}, findCol c r = some v → (c, v) ∈ r := by
  intro r
  induction r with
  | nil => intro h; simp [findCol] at h
  | cons p t ih =>
    intro h
    rcases p with ⟨k, w⟩
    by_cases hc : k = c
    · simp [findCol, hc] at h
      subst hc; subst h
      exact List.mem_cons_self _ _
    · simp [findCol, hc] at h
      exact List.mem_cons_of_mem _ (ih h)

theorem findCol_mapRow (f : String → Val → Val) (c : String) :
    ∀ r : Row, findCol c (r.map (fun p => (p.1, f p.1 p.2))) = (findCol c r).map (f c) := by
  intro r
  induction r with
  | nil => simp [findCol]
  | cons p t ih =>
    by_cases hc : p.1 = c
    · simp [findCol, hc]
    · simp [findCol, hc, ih]

theorem findCol_selectRow {c : String} {cs : List String} (r : Row) (hc : c ∈ cs) :
    findCol c (selectRow cs r) = some ((findCol c r).getD Val.na) := by
  induction cs with
  | nil => cases hc
  | cons c' t ih =>
    by_cases h : c' = c
    · simp [selectRow, findCol, h]
    · rcases List.mem_cons.mp hc with hc' | hc'
      · exact absurd hc'.symm h
      · simpa [selectRow, findCol, h] using ih hc'

theorem findCol_append_some {c : String} {v : Val} {l1 : Row} (l2 : Row)
    (h : findCol c l1 = some v) : findCol c (l1 ++ l2) = some v := by
  induction l1 with
  | nil => simp [findCol] at h
  | cons p t ih =>
    by_cases hc : p.1 = c
    · simp [findCol, hc] at h ⊢; exact h
    · simp [findCol, hc] at h ⊢; exact ih h

theorem findCol_append_none {c : String} {l1 : Row} (l2 : Row)
    (h : findCol c l1 = none) : findCol c (l1 ++ l2) = findCol c l2 := by
  induction l1 with
  | nil => simp
  | cons p t ih =>
    by_cases hc : p.1 = c
    · simp [findCol, hc] at h
    · simp [findCol, hc] at h ⊢; exact ih h

theorem findCol_stripKey (r : Row) : findCol "CDSCODE" (stripKey r) = none := by
  induction r with
  | nil => simp [stripKey, findCol]
  | cons p t ih =>
    by_cases hc : p.1 = "CDSCODE"
    · simpa [stripKey, hc] using ih
    · simpa [stripKey, findCol, hc] using ih

theorem keyOf_append_strip (r1 r2 : Row) : keyOf (r1 ++ stripKey r2) = keyOf r1 := by
  unfold keyOf
  cases h : findCol "CDSCODE" r1 with
  | none => rw [findCol_append_none _ h, findCol_stripKey]
  | some v => rw [findCol_append_some _ h]

theorem headD_mem {α : Type} {l : List α} (d : α) (h : l ≠ []) : l.headD d ∈ l := by
  cases l with
  | nil => exact absurd rfl h
  | cons a t => exact List.mem_cons_self a t

theorem getD_mem {α : Type} : ∀ (l : List α) (i : ℕ) (d : α), i < l.length → l.getD i d ∈ l := by
  intro l
  induction l with
  | nil => intro i d h; simp at h
  | cons a t ih =>
    intro i d h
    cases i with
    | zero => simp [List.getD]
    | succ j =>
      simp only [List.getD_cons_succ]
      exact List.mem_cons_of_mem a (ih j d (by simpa using h))

/-! ### C9 — the validator's size threshold is warning-only -/

/-- C9: `validate_final_dataset` returns `True` for every frame that has
no missing value and contains all required columns, with no lower bound
on the row count: the minimum-size check of line 342 only logs a
warning. -/
theorem C9_rowcount_warning_only (df : DataFrame)
    (h1 : hasMissing df = false)
    (h2 : ∀ c ∈ requiredColumns, c ∈ df.cols) :
    validate_final_dataset df = true := by
  simp only [validate_final_dataset, h1]
  simp
  exact h2

/-- A complete single-row frame (far below the 100-row threshold of
line 342) with all required columns. -/
def smallValidFrame : DataFrame :=
  ⟨requiredColumns,
   [[("CDSCODE", Val.str "01612596097927"), ("PERSD", Val.num 55),
     ("SMATH_Y2", Val.num 41), ("SELA_Y2", Val.num 52),
     ("HTCHSAL", Val.num 92316), ("RALL", Val.num 12)]]⟩

/-- Witness for C9: the validator accepts a one-row frame. -/
theorem C9_witness : validate_final_dataset smallValidFrame = true :=
  C9_rowcount_warning_only smallValidFrame (by decide) (by decide)

/-! ### C2 — a missing input file does not propagate past `load_data` -/

/-- C2 counterexample: on a run whose loader raised `FileNotFoundError`
for a missing input file, `load_data` returns normally with `None` — the
catch-all handler of lines 313-316 swallows the exception — so no error
propagates unmodified to `load_data`'s caller, contrary to the claim.
(The claim's other half holds: no partial merged table is returned.) -/
theorem C2_counterexample :
    load_data (Except.error
      "FileNotFoundError: [Errno 2] No such file or directory: 'Expenditure_Data.txt'") = none := rfl

/-- C2 amended: when a required input file is absent,
`load_raw_datasets` raises `FileNotFoundError`; `load_data` catches it
(lines 313-316), logs, and returns `None`, so no partial merged table is
returned — but the error is not re-raised to `load_data`'s caller. -/
theorem C2_amended_error_swallowed (e : String) :
    load_data (Except.error e) = none := rfl

/-! ### Minimum / maximum lemmas for the scaler -/

theorem foldl_min_le_init : ∀ (t : List ℚ) (x : ℚ), t.foldl min x ≤ x := by
  intro t
  induction t with
  | nil => intro x; exact le_refl x
  | cons y t ih =>
    intro x
    exact le_trans (ih (min x y)) (min_le_left x y)

theorem foldl_min_le_mem : ∀ (t : List ℚ) (x q : ℚ), q ∈ t → t.foldl min x ≤ q := by
  intro t
  induction t with
  | nil => intro x q h; cases h
  | cons y t ih =>
    intro x q h
    rcases List.mem_cons.mp h with h' | h'
    · subst h'
      exact le_trans (foldl_min_le_init t (min x q)) (min_le_right x q)
    · exact ih (min x y) q h'

theorem le_foldl_max_init : ∀ (t : List ℚ) (x : ℚ), x ≤ t.foldl max x := by
  intro t
  induction t with
  | nil => intro x; exact le_refl x
  | cons y t ih =>
    intro x
    exact le_trans (le_max_left x y) (ih (max x y))

theorem mem_le_foldl_max : ∀ (t : List ℚ) (x q : ℚ), q ∈ t → q ≤ t.foldl max x := by
  intro t
  induction t with
  | nil => intro x q h; cases h
  | cons y t ih =>
    intro x q h
    rcases List.mem_cons.mp h with h' | h'
    · subst h'
      exact le_trans (le_max_right x q) (le_foldl_max_init t (max x q))
    · exact ih (max x y) q h'

theorem minD_le_mem {l : List ℚ} {q : ℚ} (h : q ∈ l) : minD l ≤ q := by
  cases l with
  | nil => cases h
  | cons x t =>
    rcases List.mem_cons.mp h with h' | h'
    · subst h'; exact foldl_min_le_init t q
    · exact foldl_min_le_mem t x q h'

theorem mem_le_maxD {l : List ℚ} {q : ℚ} (h : q ∈ l) : q ≤ maxD l := by
  cases l with
  | nil => cases h
  | cons x t =>
    rcases List.mem_cons.mp h with h' | h'
    · subst h'; exact le_foldl_max_init t q
    · exact mem_le_foldl_max t x q h'

theorem mem_colNums {df : DataFrame} {c : String} {q : ℚ} {r : Row}
    (hr : r ∈ df.rows) (h : findCol c r = some (Val.num q)) : q ∈ colNums df c := by
  unfold colNums
  exact List.mem_filterMap.mpr ⟨r, hr, by rw [h]⟩

/-- Successful normalization pins down the result rows and the guard
conditions (nonempty input, no string cell in a listed column). -/
theorem normalize_ok_dest {df out : DataFrame} {cs : List String}
    (h : normalize_columns df cs = Except.ok out) :
    out = ⟨df.cols, df.rows.map (normRow df cs)⟩
    ∧ df.rows.length ≠ 0 ∧ ∀ c ∈ cs, isNumericCol df c = true := by
  unfold normalize_columns at h
  split at h
  · cases h
  · split at h
    · cases h
    · split at h
      · cases h
      · rename_i h1 h2 h3
        exact ⟨(Except.ok.inj h).symm, h2, not_not.mp h3⟩

/-! ### C5 — min-max scaling lands in [0,1] with min ↦ 0 and max ↦ 1 -/

/-- C5: for every column `c` handled by `normalize_columns` that is not
constant, every scaled value lies in `[0, 1]`, a cell at the column
minimum is scaled to exactly `0` and a cell at the column maximum to
exactly `1` (`scaled = (x - min) / (max - min)` with the extrema taken
over the whole frame).  In the pipeline the scaled columns are `DSAL`,
`STSAL`, `BTCHSAL`, `MTCHSAL`, `HTCHSAL` (`normTargetCols`). -/
theorem C5_minmax_range (df out : DataFrame) (cs : List String) (c : String)
    (hc : c ∈ cs)
    (h : normalize_columns df cs = Except.ok out)
    (hnc : ∃ a ∈ colNums df c, ∃ b ∈ colNums df c, a ≠ b) :
    (out.rows = df.rows.map (normRow df cs))
    ∧ (∀ r ∈ df.rows, ∀ q : ℚ, findCol c r = some (Val.num q) →
        ∃ s : ℚ, findCol c (normRow df cs r) = some (Val.num s) ∧ 0 ≤ s ∧ s ≤ 1)
    ∧ (∀ r ∈ df.rows, findCol c r = some (Val.num (minD (colNums df c))) →
        findCol c (normRow df cs r) = some (Val.num 0))
    ∧ (∀ r ∈ df.rows, findCol c r = some (Val.num (maxD (colNums df c))) →
        findCol c (normRow df cs r) = some (Val.num 1)) := by
  obtain ⟨a, ha, b, hb, hab⟩ := hnc
  have hlole : minD (colNums df c) ≤ maxD (colNums df c) :=
    le_trans (minD_le_mem ha) (mem_le_maxD ha)
  have hlohi : minD (colNums df c) < maxD (colNums df c) := by
    rcases lt_or_eq_of_le hlole with hlt | heq
    · exact hlt
    · exfalso
      apply hab
      have ha1 : a = minD (colNums df c) :=
        le_antisymm (by rw [heq]; exact mem_le_maxD ha) (minD_le_mem ha)
      have hb1 : b = minD (colNums df c) :=
        le_antisymm (by rw [heq]; exact mem_le_maxD hb) (minD_le_mem hb)
      rw [ha1, hb1]
  have hpos : (0 : ℚ) < maxD (colNums df c) - minD (colNums df c) := sub_pos.mpr hlohi
  have hdenom : scaleDenom (minD (colNums df c)) (maxD (colNums df c))
      = maxD (colNums df c) - minD (colNums df c) := if_neg (ne_of_gt hlohi)
  have hfind : ∀ r : Row, findCol c (normRow df cs r) = (findCol c r).map (normCell df cs c) :=
    fun r => findCol_mapRow (normCell df cs) c r
  refine ⟨(normalize_ok_dest h).1 ▸ rfl, ?_, ?_, ?_⟩
  · intro r hr q hq
    refine ⟨(q - minD (colNums df c)) / (maxD (colNums df c) - minD (colNums df c)), ?_, ?_, ?_⟩
    · rw [hfind r, hq]
      simp [normCell, hc, scaleCell, hdenom]
    · exact div_nonneg (sub_nonneg.mpr (minD_le_mem (mem_colNums hr hq))) (le_of_lt hpos)
    · exact (div_le_one hpos).mpr (sub_le_sub_right (mem_le_maxD (mem_colNums hr hq)) _)
  · intro r hr hq
    rw [hfind r, hq]
    simp [normCell, hc, scaleCell, hdenom]
  · intro r hr hq
    rw [hfind r, hq]
    simp [normCell, hc, scaleCell, hdenom]
    exact div_self (ne_of_gt hpos)

/-- A two-row frame with a non-constant column `DSAL`. -/
def frameC5 : DataFrame :=
  ⟨["DSAL"], [[("DSAL", Val.num 4100)], [("DSAL", Val.num 6500)]]⟩

/-- Witness for C5: in a concrete two-valued column, the row holding the
column minimum scales to exactly 0. -/
theorem C5_witness :
    findCol "DSAL" (normRow frameC5 ["DSAL"] [("DSAL", Val.num 4100)]) = some (Val.num 0) :=
  (C5_minmax_range frameC5 (okFrame (normalize_columns frameC5 ["DSAL"])) ["DSAL"] "DSAL"
    (by decide) rfl (by decide)).2.2.1 [("DSAL", Val.num 4100)] (by decide) (by decide)

/-! ### C6 — a constant column scales to 0 everywhere, never NaN -/

/-- C6: when a column handled by `normalize_columns` is constant
(`max = min`), `MinMaxScaler` replaces the zero range by 1
(`scaleDenom`), so every cell of the column scales to exactly `0`: no
division by zero happens and no value becomes `NaN` (`Val.na`). -/
theorem C6_constant_column_zero (df out : DataFrame) (cs : List String) (c : String)
    (hc : c ∈ cs)
    (h : normalize_columns df cs = Except.ok out)
    (hconst : maxD (colNums df c) = minD (colNums df c)) :
    (out.rows = df.rows.map (normRow df cs))
    ∧ (∀ r ∈ df.rows, ∀ q : ℚ, findCol c r = some (Val.num q) →
        findCol c (normRow df cs r) = some (Val.num 0)) := by
  have hdenom : scaleDenom (minD (colNums df c)) (maxD (colNums df c)) = 1 := if_pos hconst
  refine ⟨(normalize_ok_dest h).1 ▸ rfl, ?_⟩
  intro r hr q hq
  have hqlo : q = minD (colNums df c) :=
    le_antisymm
      (hconst ▸ mem_le_maxD (mem_colNums hr hq))
      (minD_le_mem (mem_colNums hr hq))
  have hfind : findCol c (normRow df cs r) = (findCol c r).map (normCell df cs c) :=
    findCol_mapRow (normCell df cs) c r
  rw [hfind, hq]
  simp [normCell, hc, scaleCell, hdenom, hqlo]

/-- A two-row frame whose salary column is constant at 500. -/
def frameC6 : DataFrame :=
  ⟨["BTCHSAL"], [[("BTCHSAL", Val.num 500)], [("BTCHSAL", Val.num 500)]]⟩

/-- Witness for C6: a constant-500 column scales to exactly 0. -/
theorem C6_witness :
    findCol "BTCHSAL" (normRow frameC6 ["BTCHSAL"] [("BTCHSAL", Val.num 500)]) = some (Val.num 0) :=
  (C6_constant_column_zero frameC6 (okFrame (normalize_columns frameC6 ["BTCHSAL"]))
    ["BTCHSAL"] "BTCHSAL" (by decide) rfl (by decide)).2
    [("BTCHSAL", Val.num 500)] (by decide) 500 (by decide)

/-! ### Stage destructuring lemmas -/

theorem clean_ok_dest {ds ds1 : Datasets} (h : clean_datasets ds = Except.ok ds1) :
    ds1.expenditure = dropColsU expDropCols ds.expenditure
    ∧ ds1.salary = selectColsU salaryCols ds.salary
    ∧ ds1.test_scores = replaceVals tsMissingTokens Val.na (selectColsU testScoreCols ds.test_scores)
    ∧ ds1.chronic_absence = selectColsU chronicCols ds.chronic_absence
    ∧ ds1.socioeconomic = ds.socioeconomic := by
  unfold clean_datasets at h
  split at h
  · cases Except.ok.inj h
    exact ⟨rfl, rfl, rfl, rfl, rfl⟩
  · cases h

theorem convert_ok_dest {ds ds2 : Datasets} (h : convert_data_types ds = Except.ok ds2) :
    ds2.expenditure = coerceColsU expNumCols ds.expenditure
    ∧ ds2.salary = coerceColsU salaryNumCols ds.salary
    ∧ ds2.test_scores = coerceColsU testNumCols ds.test_scores
    ∧ ds2.chronic_absence = coerceColsU chronicNumCols ds.chronic_absence
    ∧ ds2.socioeconomic = coerceColsU ["PERSD"] ds.socioeconomic := by
  unfold convert_data_types at h
  split at h
  · cases Except.ok.inj h
    exact ⟨rfl, rfl, rfl, rfl, rfl⟩
  · cases h

theorem merge_ok_dest {ds : Datasets} {df : DataFrame} (h : merge_datasets ds = Except.ok df) :
    df = dropna (mergeOn (mergeOn (mergeOn (mergeOn ds.expenditure ds.salary)
      ds.test_scores) ds.socioeconomic) ds.chronic_absence) := by
  unfold merge_datasets at h
  split at h
  · exact (Except.ok.inj h).symm
  · cases h

/-- Every row surviving `dropna` has no missing cell. -/
theorem dropna_complete {df : DataFrame} {r : Row} (hr : r ∈ (dropna df).rows) :
    ∀ p ∈ r, p.2 ≠ Val.na := by
  intro p hp
  have hmem := List.mem_filter.mp hr
  have hall := List.all_eq_true.mp hmem.2 p hp
  exact of_decide_eq_true hall

/-! ### C7 — "--" and "0" placeholders become missing and are dropped -/

/-- C7: in the test-score table, a cell holding the literal string token
`"--"` or `"0"` is replaced by the missing marker (not the number zero)
during cleaning; the marker survives the type coercion of
`convert_data_types`; and the final merged table (post-`dropna`) has no
row whose `SMATH_Y2` is missing, so a row carrying such a marker is
absent from it. -/
theorem C7_placeholder_missing (ds ds1 ds2 : Datasets) (mdf : DataFrame)
    (hclean : clean_datasets ds = Except.ok ds1)
    (hconv : convert_data_types (handle_missing_values ds1) = Except.ok ds2)
    (hmerge : merge_datasets ds2 = Except.ok mdf)
    (r : Row) (hr : r ∈ ds.test_scores.rows) (c : String) (hc : c ∈ testScoreCols)
    (htok : findCol c r = some (Val.str "--") ∨ findCol c r = some (Val.str "0")) :
    (findCol c (replaceRow tsMissingTokens Val.na (selectRow testScoreCols r)) = some Val.na
      ∧ replaceRow tsMissingTokens Val.na (selectRow testScoreCols r) ∈ ds1.test_scores.rows)
    ∧ (findCol c (coerceRow testNumCols
        (replaceRow tsMissingTokens Val.na (selectRow testScoreCols r))) = some Val.na
      ∧ coerceRow testNumCols (replaceRow tsMissingTokens Val.na (selectRow testScoreCols r))
          ∈ ds2.test_scores.rows)
    ∧ (∀ r' ∈ mdf.rows, findCol "SMATH_Y2" r' ≠ some Val.na) := by
  have hsel : findCol c (selectRow testScoreCols r) = some ((findCol c r).getD Val.na) :=
    findCol_selectRow r hc
  have hrep : findCol c (replaceRow tsMissingTokens Val.na (selectRow testScoreCols r))
      = (findCol c (selectRow testScoreCols r)).map (replaceCell tsMissingTokens Val.na) :=
    findCol_mapRow (fun _ v => replaceCell tsMissingTokens Val.na v) c _
  have hgone : findCol c (replaceRow tsMissingTokens Val.na (selectRow testScoreCols r))
      = some Val.na := by
    rcases htok with htok | htok <;>
      · rw [hrep, hsel, htok]
        simp [replaceCell, tsMissingTokens]
  have hmem1 : replaceRow tsMissingTokens Val.na (selectRow testScoreCols r)
      ∈ ds1.test_scores.rows := by
    have h1 : ds1.test_scores
        = replaceVals tsMissingTokens Val.na (selectColsU testScoreCols ds.test_scores) :=
      (clean_ok_dest hclean).2.2.1
    rw [h1]
    exact List.mem_map_of_mem _ (List.mem_map_of_mem _ hr)
  refine ⟨⟨hgone, hmem1⟩, ⟨?_, ?_⟩, ?_⟩
  · have hco : findCol c (coerceRow testNumCols
        (replaceRow tsMissingTokens Val.na (selectRow testScoreCols r)))
        = (findCol c (replaceRow tsMissingTokens Val.na (selectRow testScoreCols r))).map
            (coerceCell testNumCols c) :=
      findCol_mapRow (coerceCell testNumCols) c _
    rw [hco, hgone]
    by_cases hcn : c ∈ testNumCols <;> simp [coerceCell, hcn, toNumericCell]
  · have h2 : ds2.test_scores
        = coerceColsU testNumCols (handle_missing_values ds1).test_scores :=
      (convert_ok_dest hconv).2.2.1
    rw [h2]
    exact List.mem_map_of_mem _ hmem1
  · intro r' hr' hna
    have hcomplete : ∀ p ∈ r', p.2 ≠ Val.na := by
      have hd := merge_ok_dest hmerge
      rw [hd] at hr'
      exact dropna_complete hr'
    exact hcomplete ("SMATH_Y2", Val.na) (findCol_mem hna) rfl

/-- A five-table run whose only test-score row has `SMATH_Y2 = "--"`. -/
def datasetsC7 : Datasets :=
  ⟨⟨["CDSCODE", "SARCYEAR", "C", "D", "S", "STEXP", "DSAL", "STSAL"],
    [[("CDSCODE", Val.str "01100170112607"), ("SARCYEAR", Val.num 2019),
      ("C", Val.num 1), ("D", Val.num 2), ("S", Val.num 3), ("STEXP", Val.num 4),
      ("DSAL", Val.num 75924), ("STSAL", Val.num 66478)]]⟩,
   ⟨["CDSCODE", "BTCHSAL", "MTCHSAL", "HTCHSAL"],
    [[("CDSCODE", Val.str "01100170112607"), ("BTCHSAL", Val.num 46553),
      ("MTCHSAL", Val.num 72824), ("HTCHSAL", Val.num 94146)]]⟩,
   ⟨["CDSCODE", "SELA_Y2", "SMATH_Y2", "DELA_Y2", "DMATH_Y2"],
    [[("CDSCODE", Val.str "01100170112607"), ("SELA_Y2", Val.num 48),
      ("SMATH_Y2", Val.str "--"), ("DELA_Y2", Val.num 3), ("DMATH_Y2", Val.num 2)]]⟩,
   ⟨["CDSCODE", "RALL", "REL", "RSED"],
    [[("CDSCODE", Val.str "01100170112607"), ("RALL", Val.num 12),
      ("REL", Val.num 15), ("RSED", Val.num 14)]]⟩,
   ⟨["CDSCODE", "PERSD"],
    [[("CDSCODE", Val.str "01100170112607"), ("PERSD", Val.num 55)]]⟩⟩

/-- The test-score row of `datasetsC7`. -/
def testRowC7 : Row :=
  [("CDSCODE", Val.str "01100170112607"), ("SELA_Y2", Val.num 48),
   ("SMATH_Y2", Val.str "--"), ("DELA_Y2", Val.num 3), ("DMATH_Y2", Val.num 2)]

/-- Witness for C7: on that run the `"--"` cell is a missing marker
after cleaning. -/
theorem C7_witness :
    findCol "SMATH_Y2"
      (replaceRow tsMissingTokens Val.na (selectRow testScoreCols testRowC7)) = some Val.na :=
  (C7_placeholder_missing datasetsC7
    (okDatasets (clean_datasets datasetsC7))
    (okDatasets (convert_data_types (handle_missing_values (okDatasets (clean_datasets datasetsC7)))))
    (okFrame (merge_datasets (okDatasets (convert_data_types
      (handle_missing_values (okDatasets (clean_datasets datasetsC7)))))))
    rfl rfl rfl testRowC7 (by decide) "SMATH_Y2" (by decide)
    (Or.inl (by decide))).1.1

/-! ### C10 — mean fill precedes coercion, so unparseable strings are
dropped rather than imputed -/

/-- C10: `handle_missing_values` runs before `convert_data_types` in
`load_data`, so a cell of the expenditure table (first conjunct) or of
the salary table (second conjunct) holding a non-missing string that
does not parse as a number is untouched by the mean fill (`fillna` only
replaces missing cells); the Type Normalizer then turns it into the
missing marker, and (third conjunct) any row still containing a missing
marker is removed by the post-merge `dropna` gate instead of being
imputed.  The two tables take different reduction paths — a deny-list
`drop` for expenditure, an allow-list selection for salary — so each
half is stated along its own path. -/
theorem C10_fill_before_coerce (ds ds1 ds2 : Datasets)
    (hclean : clean_datasets ds = Except.ok ds1)
    (hconv : convert_data_types (handle_missing_values ds1) = Except.ok ds2) :
    (∀ r ∈ ds.expenditure.rows, ∀ c s : String,
      c ∈ expNumCols → (c, Val.str s) ∈ r → parseNum s = none →
      ((c, Val.str s) ∈ fillRow ds1.expenditure (dropRowCols expDropCols r)
        ∧ fillRow ds1.expenditure (dropRowCols expDropCols r)
            ∈ (handle_missing_values ds1).expenditure.rows)
      ∧ ((c, Val.na) ∈ coerceRow expNumCols (fillRow ds1.expenditure (dropRowCols expDropCols r))
        ∧ coerceRow expNumCols (fillRow ds1.expenditure (dropRowCols expDropCols r))
            ∈ ds2.expenditure.rows))
    ∧ (∀ r ∈ ds.salary.rows, ∀ c s : String,
      c ∈ salaryNumCols → findCol c r = some (Val.str s) → parseNum s = none →
      ((findCol c (fillRow ds1.salary (selectRow salaryCols r)) = some (Val.str s)
        ∧ fillRow ds1.salary (selectRow salaryCols r)
            ∈ (handle_missing_values ds1).salary.rows)
      ∧ (findCol c (coerceRow salaryNumCols (fillRow ds1.salary (selectRow salaryCols r)))
            = some Val.na
        ∧ coerceRow salaryNumCols (fillRow ds1.salary (selectRow salaryCols r))
            ∈ ds2.salary.rows)))
    ∧ (∀ df : DataFrame, ∀ r' ∈ (dropna df).rows, ∀ p ∈ r', p.2 ≠ Val.na) := by
  refine ⟨?_, ?_, ?_⟩
  · intro r hr c s hc hp hparse
    have hnd : c ∉ expDropCols := by fin_cases hc <;> decide
    have hdropmem : (c, Val.str s) ∈ dropRowCols expDropCols r :=
      List.mem_filter.mpr ⟨hp, by simpa using hnd⟩
    have hfillmem : (c, Val.str s) ∈ fillRow ds1.expenditure (dropRowCols expDropCols r) := by
      have := List.mem_map_of_mem
        (fun p : String × Val => (p.1, fillCell ds1.expenditure p.1 p.2)) hdropmem
      simpa [fillRow, fillCell] using this
    have hexp1 : ds1.expenditure = dropColsU expDropCols ds.expenditure :=
      (clean_ok_dest hclean).1
    have hmemclean : dropRowCols expDropCols r ∈ ds1.expenditure.rows := by
      rw [hexp1]
      exact List.mem_map_of_mem _ hr
    have hmemhandle : fillRow ds1.expenditure (dropRowCols expDropCols r)
        ∈ (handle_missing_values ds1).expenditure.rows :=
      List.mem_map_of_mem _ hmemclean
    refine ⟨⟨hfillmem, hmemhandle⟩, ?_, ?_⟩
    · have := List.mem_map_of_mem
        (fun p : String × Val => (p.1, coerceCell expNumCols p.1 p.2)) hfillmem
      simpa [coerceRow, coerceCell, hc, toNumericCell, hparse] using this
    · have hexp2 : ds2.expenditure
          = coerceColsU expNumCols (handle_missing_values ds1).expenditure :=
        (convert_ok_dest hconv).1
      rw [hexp2]
      exact List.mem_map_of_mem _ hmemhandle
  · intro r hr c s hc hp hparse
    have hcin : c ∈ salaryCols := by fin_cases hc <;> decide
    have hsel : findCol c (selectRow salaryCols r) = some (Val.str s) := by
      rw [findCol_selectRow r hcin, hp]
      rfl
    have hfill : findCol c (fillRow ds1.salary (selectRow salaryCols r))
        = some (Val.str s) := by
      have hmapped : findCol c (fillRow ds1.salary (selectRow salaryCols r))
          = (findCol c (selectRow salaryCols r)).map (fillCell ds1.salary c) :=
        findCol_mapRow (fillCell ds1.salary) c _
      rw [hmapped, hsel]
      rfl
    have hsal1 : ds1.salary = selectColsU salaryCols ds.salary :=
      (clean_ok_dest hclean).2.1
    have hmemclean : selectRow salaryCols r ∈ ds1.salary.rows := by
      rw [hsal1]
      exact List.mem_map_of_mem _ hr
    have hmemhandle : fillRow ds1.salary (selectRow salaryCols r)
        ∈ (handle_missing_values ds1).salary.rows :=
      List.mem_map_of_mem _ hmemclean
    refine ⟨⟨hfill, hmemhandle⟩, ?_, ?_⟩
    · have hmapped : findCol c (coerceRow salaryNumCols
          (fillRow ds1.salary (selectRow salaryCols r)))
          = (findCol c (fillRow ds1.salary (selectRow salaryCols r))).map
              (coerceCell salaryNumCols c) :=
        findCol_mapRow (coerceCell salaryNumCols) c _
      rw [hmapped, hfill]
      simp [coerceCell, hc, toNumericCell, hparse]
    · have hsal2 : ds2.salary
          = coerceColsU salaryNumCols (handle_missing_values ds1).salary :=
        (convert_ok_dest hconv).2.1
      rw [hsal2]
      exact List.mem_map_of_mem _ hmemhandle
  · intro df r' hr' p hp
    exact dropna_complete hr' p hp

/-- A five-table run whose expenditure row has the unparseable string
`"abc"` in `DSAL` and whose salary row has the unparseable string
`"n/a"` in `BTCHSAL`. -/
def datasetsC10 : Datasets :=
  ⟨⟨["CDSCODE", "SARCYEAR", "C", "D", "S", "STEXP", "DSAL", "STSAL"],
    [[("CDSCODE", Val.str "19647331933746"), ("SARCYEAR", Val.num 2019),
      ("C", Val.num 1), ("D", Val.num 2), ("S", Val.num 3), ("STEXP", Val.num 4),
      ("DSAL", Val.str "abc"), ("STSAL", Val.num 66478)]]⟩,
   ⟨["CDSCODE", "BTCHSAL", "MTCHSAL", "HTCHSAL"],
    [[("CDSCODE", Val.str "19647331933746"), ("BTCHSAL", Val.str "n/a"),
      ("MTCHSAL", Val.num 72824), ("HTCHSAL", Val.num 94146)]]⟩,
   ⟨["CDSCODE", "SELA_Y2", "SMATH_Y2", "DELA_Y2", "DMATH_Y2"],
    [[("CDSCODE", Val.str "19647331933746"), ("SELA_Y2", Val.num 48),
      ("SMATH_Y2", Val.num 41), ("DELA_Y2", Val.num 3), ("DMATH_Y2", Val.num 2)]]⟩,
   ⟨["CDSCODE", "RALL", "REL", "RSED"],
    [[("CDSCODE", Val.str "19647331933746"), ("RALL", Val.num 12),
      ("REL", Val.num 15), ("RSED", Val.num 14)]]⟩,
   ⟨["CDSCODE", "PERSD"],
    [[("CDSCODE", Val.str "19647331933746"), ("PERSD", Val.num 55)]]⟩⟩

/-- The expenditure row of `datasetsC10`. -/
def expRowC10 : Row :=
  [("CDSCODE", Val.str "19647331933746"), ("SARCYEAR", Val.num 2019),
   ("C", Val.num 1), ("D", Val.num 2), ("S", Val.num 3), ("STEXP", Val.num 4),
   ("DSAL", Val.str "abc"), ("STSAL", Val.num 66478)]

/-- The salary row of `datasetsC10`. -/
def salRowC10 : Row :=
  [("CDSCODE", Val.str "19647331933746"), ("BTCHSAL", Val.str "n/a"),
   ("MTCHSAL", Val.num 72824), ("HTCHSAL", Val.num 94146)]

/-- Witness for C10, exercising both halves: on that run the
unparseable expenditure `DSAL` cell and the unparseable salary
`BTCHSAL` cell are both still the same string after the mean fill (not
imputed). -/
theorem C10_witness :
    ("DSAL", Val.str "abc")
      ∈ fillRow (okDatasets (clean_datasets datasetsC10)).expenditure
          (dropRowCols expDropCols expRowC10)
    ∧ findCol "BTCHSAL"
        (fillRow (okDatasets (clean_datasets datasetsC10)).salary
          (selectRow salaryCols salRowC10)) = some (Val.str "n/a") := by
  have h := C10_fill_before_coerce datasetsC10
    (okDatasets (clean_datasets datasetsC10))
    (okDatasets (convert_data_types (handle_missing_values (okDatasets (clean_datasets datasetsC10)))))
    rfl rfl
  exact ⟨(h.1 expRowC10 (by decide) "DSAL" "abc" (by decide) (by decide) (by decide)).1.1,
         (h.2.1 salRowC10 (by decide) "BTCHSAL" "n/a" (by decide) (by decide) (by decide)).1.1⟩

/-! ### C8 — the expenditure table uses a deny-list, not an allow-list -/

/-- An expenditure table holding its analysis columns (`CDSCODE`,
`DSAL`, `STSAL`) plus one extra column, but none of the deny-listed
columns; the other four tables are unremarkable. -/
def datasetsC8bad : Datasets :=
  ⟨⟨["CDSCODE", "DSAL", "STSAL", "SCHOOLNAME"],
    [[("CDSCODE", Val.str "36678196035913"), ("DSAL", Val.num 75924),
      ("STSAL", Val.num 66478), ("SCHOOLNAME", Val.str "Alameda High")]]⟩,
   ⟨["CDSCODE", "BTCHSAL", "MTCHSAL", "HTCHSAL"],
    [[("CDSCODE", Val.str "36678196035913"), ("BTCHSAL", Val.num 46553),
      ("MTCHSAL", Val.num 72824), ("HTCHSAL", Val.num 94146)]]⟩,
   ⟨["CDSCODE", "SELA_Y2", "SMATH_Y2", "DELA_Y2", "DMATH_Y2"],
    [[("CDSCODE", Val.str "36678196035913"), ("SELA_Y2", Val.num 48),
      ("SMATH_Y2", Val.num 41), ("DELA_Y2", Val.num 3), ("DMATH_Y2", Val.num 2)]]⟩,
   ⟨["CDSCODE", "RALL", "REL", "RSED"],
    [[("CDSCODE", Val.str "36678196035913"), ("RALL", Val.num 12),
      ("REL", Val.num 15), ("RSED", Val.num 14)]]⟩,
   ⟨["CDSCODE", "PERSD"],
    [[("CDSCODE", Val.str "36678196035913"), ("PERSD", Val.num 55)]]⟩⟩

/-- The same run with the deny-listed columns present as well, so that
cleaning succeeds; the extra `SCHOOLNAME` column and an extra salary
column `EXTRA` are still there. -/
def datasetsC8extra : Datasets :=
  ⟨⟨["CDSCODE", "SARCYEAR", "C", "D", "S", "STEXP", "DSAL", "STSAL", "SCHOOLNAME"],
    [[("CDSCODE", Val.str "36678196035913"), ("SARCYEAR", Val.num 2019),
      ("C", Val.num 1), ("D", Val.num 2), ("S", Val.num 3), ("STEXP", Val.num 4),
      ("DSAL", Val.num 75924), ("STSAL", Val.num 66478),
      ("SCHOOLNAME", Val.str "Alameda High")]]⟩,
   ⟨["CDSCODE", "BTCHSAL", "MTCHSAL", "HTCHSAL", "EXTRA"],
    [[("CDSCODE", Val.str "36678196035913"), ("BTCHSAL", Val.num 46553),
      ("MTCHSAL", Val.num 72824), ("HTCHSAL", Val.num 94146), ("EXTRA", Val.num 7)]]⟩,
   ⟨["CDSCODE", "SELA_Y2", "SMATH_Y2", "DELA_Y2", "DMATH_Y2"],
    [[("CDSCODE", Val.str "36678196035913"), ("SELA_Y2", Val.num 48),
      ("SMATH_Y2", Val.num 41), ("DELA_Y2", Val.num 3), ("DMATH_Y2", Val.num 2)]]⟩,
   ⟨["CDSCODE", "RALL", "REL", "RSED"],
    [[("CDSCODE", Val.str "36678196035913"), ("RALL", Val.num 12),
      ("REL", Val.num 15), ("RSED", Val.num 14)]]⟩,
   ⟨["CDSCODE", "PERSD"],
    [[("CDSCODE", Val.str "36678196035913"), ("PERSD", Val.num 55)]]⟩⟩

/-- C8 counterexample: for the expenditure table the claim fails twice.
On `datasetsC8bad` — an expenditure table holding its required analysis
columns plus an arbitrary extra one — the reduction does not succeed:
`drop(['SARCYEAR','C','D','S','STEXP'])` raises `KeyError` because the
deny-listed columns are absent.  And on `datasetsC8extra` — where the
deny-listed columns are present — the reduction succeeds but keeps the
unknown extra column `SCHOOLNAME` instead of dropping it. -/
theorem C8_counterexample :
    clean_datasets datasetsC8bad = Except.error "KeyError"
    ∧ "SCHOOLNAME" ∈ (okDatasets (clean_datasets datasetsC8extra)).expenditure.cols := by
  constructor
  · rfl
  · decide

/-- C8 amended: the reducer keeps exactly the allow-list columns of the
salary, test-score and chronic-absence tables (unknown extras dropped
without error), but reduces the expenditure table by removing a fixed
deny-list (`SARCYEAR`, `C`, `D`, `S`, `STEXP`) — keeping any other
extra column — and only succeeds when every deny-listed column is
present. -/
theorem C8_amended_reducer_columns (ds ds1 : Datasets)
    (h : clean_datasets ds = Except.ok ds1) :
    ds1.salary.cols = salaryCols
    ∧ ds1.test_scores.cols = testScoreCols
    ∧ ds1.chronic_absence.cols = chronicCols
    ∧ ds1.expenditure.cols = ds.expenditure.cols.filter (fun c => decide (c ∉ expDropCols))
    ∧ (∀ c ∈ expDropCols, c ∈ ds.expenditure.cols) := by
  unfold clean_datasets at h
  split at h
  · rename_i hg
    cases Except.ok.inj h
    exact ⟨rfl, rfl, rfl, rfl, hg.1⟩
  · cases h

/-- Witness for C8 (amended): on the run with extra columns, the salary
table is reduced to exactly its allow-list. -/
theorem C8_witness :
    (okDatasets (clean_datasets datasetsC8extra)).salary.cols = salaryCols :=
  (C8_amended_reducer_columns datasetsC8extra
    (okDatasets (clean_datasets datasetsC8extra)) rfl).1

/-! ### C3 — an empty merge result is indistinguishable from a crash -/

/-- A five-table run whose expenditure and salary tables share no
`CDSCODE`, so the first inner join — and hence the final merge — is
empty. -/
def datasetsC3 : Datasets :=
  ⟨⟨["CDSCODE", "SARCYEAR", "C", "D", "S", "STEXP", "DSAL", "STSAL"],
    [[("CDSCODE", Val.str "01100170112607"), ("SARCYEAR", Val.num 2019),
      ("C", Val.num 1), ("D", Val.num 2), ("S", Val.num 3), ("STEXP", Val.num 4),
      ("DSAL", Val.num 75924), ("STSAL", Val.num 66478)]]⟩,
   ⟨["CDSCODE", "BTCHSAL", "MTCHSAL", "HTCHSAL"],
    [[("CDSCODE", Val.str "19647331933746"), ("BTCHSAL", Val.num 46553),
      ("MTCHSAL", Val.num 72824), ("HTCHSAL", Val.num 94146)]]⟩,
   ⟨["CDSCODE", "SELA_Y2", "SMATH_Y2", "DELA_Y2", "DMATH_Y2"],
    [[("CDSCODE", Val.str "01100170112607"), ("SELA_Y2", Val.num 48),
      ("SMATH_Y2", Val.num 41), ("DELA_Y2", Val.num 3), ("DMATH_Y2", Val.num 2)]]⟩,
   ⟨["CDSCODE", "RALL", "REL", "RSED"],
    [[("CDSCODE", Val.str "01100170112607"), ("RALL", Val.num 12),
      ("REL", Val.num 15), ("RSED", Val.num 14)]]⟩,
   ⟨["CDSCODE", "PERSD"],
    [[("CDSCODE", Val.str "01100170112607"), ("PERSD", Val.num 55)]]⟩⟩

/-- C3 counterexample: there is no `EmptyResultError` anywhere in the
repository; on a run whose merge result has zero rows `load_data`
returns `None` (here because `MinMaxScaler` raises `ValueError` on the
empty frame before the explicit emptiness check of line 302, and the
catch-all swallows it), which is exactly the value returned for a fatal
error of an earlier stage such as a missing input file — so the caller
cannot distinguish the no-result condition from a crash. -/
theorem C3_counterexample :
    load_data (Except.ok datasetsC3) = none
    ∧ load_data (Except.error
        "FileNotFoundError: [Errno 2] No such file or directory: 'Salary_Data.txt'") = none :=
  ⟨rfl, rfl⟩

/-- C3 amended: when the merged result after all joins and the
missing-value drop has zero rows, `load_data` returns `None` — the same
value it returns for every raised stage error — rather than a distinct
recoverable `EmptyResultError`; callers cannot tell the two apart. -/
theorem C3_amended_none_on_empty (ds ds1 ds2 : Datasets) (m : DataFrame)
    (h1 : clean_datasets ds = Except.ok ds1)
    (h2 : convert_data_types (handle_missing_values ds1) = Except.ok ds2)
    (h3 : merge_datasets ds2 = Except.ok m)
    (h4 : m.rows = []) :
    load_data (Except.ok ds) = none ∧ ∀ e : String, load_data (Except.error e) = none := by
  have hne : ∃ e, normalize_columns m normTargetCols = Except.error e := by
    unfold normalize_columns
    by_cases hg : ∀ c ∈ normTargetCols, c ∈ m.cols
    · refine ⟨"ValueError: 0 samples", ?_⟩
      rw [if_neg (not_not_intro hg), if_pos (by rw [h4]; rfl)]
    · exact ⟨"KeyError", if_pos hg⟩
  obtain ⟨e, he⟩ := hne
  have hrun : runPipeline ds = Except.error e := by
    unfold runPipeline
    rw [h1]; dsimp only
    rw [h2]; dsimp only
    rw [h3]; dsimp only
    rw [he]
  constructor
  · unfold load_data
    dsimp only
    rw [hrun]
  · intro e'
    rfl

/-- Witness for C3 (amended): the disjoint-key run ends in `None`. -/
theorem C3_amended_witness : load_data (Except.ok datasetsC3) = none :=
  (C3_amended_none_on_empty datasetsC3
    (okDatasets (clean_datasets datasetsC3))
    (okDatasets (convert_data_types (handle_missing_values (okDatasets (clean_datasets datasetsC3)))))
    (okFrame (merge_datasets (okDatasets (convert_data_types
      (handle_missing_values (okDatasets (clean_datasets datasetsC3)))))))
    rfl rfl rfl rfl).1

/-! ### C1 — completeness of the final table -/

/-- The raw expenditure column layout assumed by the pipeline
(`CDSCODE` plus the deny-listed bookkeeping columns plus the two
analytic columns); this is the schema of `Expenditure_Data.txt`
described by the spec's data model. -/
def expRawCols : List String :=
  ["CDSCODE", "SARCYEAR", "C", "D", "S", "STEXP", "DSAL", "STSAL"]

/-- The raw socioeconomic column layout (the loader reads only these
two columns of `Subgroup_Data.txt`, line 67). -/
def socioRawCols : List String := ["CDSCODE", "PERSD"]

/-- The expenditure columns surviving the deny-list drop. -/
def expKeptCols : List String := ["CDSCODE", "DSAL", "STSAL"]

/-- A cell that is either missing or numeric (never a string). -/
def valNumNa (v : Val) : Prop := v = Val.na ∨ ∃ q : ℚ, v = Val.num q

/-- Every non-identifier cell of the row is missing or numeric. -/
def NumNaRow (r : Row) : Prop :=
  ∀ p ∈ r, p.1 = "CDSCODE" ∨ valNumNa p.2

/-- Every non-identifier cell of the row is numeric (and present). -/
def NumRow (r : Row) : Prop :=
  ∀ p ∈ r, p.1 = "CDSCODE" ∨ ∃ q : ℚ, p.2 = Val.num q

/-- Boolean check that a cell is a (non-missing) number. -/
def cellNumeric : Val → Bool
  | Val.num _ => true
  | _ => false

/-- Boolean check of the claimed invariant: every cell of every row in
a column other than `CDSCODE` holds a numeric, non-missing value. -/
def dfAnalyticNumeric (df : DataFrame) : Bool :=
  df.rows.all (fun r => r.all (fun p => decide (p.1 = "CDSCODE") || cellNumeric p.2))

theorem toNumericCell_numOrNa (v : Val) : valNumNa (toNumericCell v) := by
  cases v with
  | na => exact Or.inl rfl
  | num q => exact Or.inr ⟨q, rfl⟩
  | str s =>
    cases hp : parseNum s with
    | none => exact Or.inl (by simp [toNumericCell, hp])
    | some q => exact Or.inr ⟨q, by simp [toNumericCell, hp]⟩

theorem mem_selectRow_key {cs : List String} {r : Row} {p : String × Val}
    (hp : p ∈ selectRow cs r) : p.1 ∈ cs := by
  obtain ⟨c, hc, rfl⟩ := List.mem_map.mp hp
  exact hc

theorem keys_mapRow {ks : List String} (f : String → Val → Val) {r : Row}
    (h : ∀ p ∈ r, p.1 ∈ ks) :
    ∀ p ∈ r.map (fun p => (p.1, f p.1 p.2)), p.1 ∈ ks := by
  intro p hp
  obtain ⟨p0, hp0, rfl⟩ := List.mem_map.mp hp
  exact h p0 hp0

theorem mem_dropRowCols {cs : List String} {r : Row} {p : String × Val}
    (hp : p ∈ dropRowCols cs r) : p ∈ r ∧ p.1 ∉ cs := by
  have h := List.mem_filter.mp hp
  exact ⟨h.1, of_decide_eq_true h.2⟩

theorem numNaRow_coerceRow {cs : List String} {r : Row}
    (h : ∀ p ∈ r, p.1 ∈ cs ∨ p.1 = "CDSCODE") : NumNaRow (coerceRow cs r) := by
  intro p hp
  obtain ⟨p0, hp0, rfl⟩ := List.mem_map.mp hp
  rcases h p0 hp0 with hin | hk
  · right
    unfold coerceCell
    rw [if_pos hin]
    exact toNumericCell_numOrNa p0.2
  · left
    exact hk

theorem numNaRow_in_coerced (cs ks : List String) (inner : List Row)
    (hks : ∀ r ∈ inner, ∀ p ∈ r, p.1 ∈ ks)
    (hsplit : ∀ k ∈ ks, k ∈ cs ∨ k = "CDSCODE") :
    ∀ r ∈ inner.map (coerceRow cs), NumNaRow r := by
  intro r hr
  obtain ⟨r0, hr0, rfl⟩ := List.mem_map.mp hr
  exact numNaRow_coerceRow (fun p hp => hsplit p.1 (hks r0 hr0 p hp))

theorem mem_joinRows_elim : ∀ {a : List Row} {b : List Row} {r : Row}, r ∈ joinRows a b →
    ∃ r1 ∈ a, ∃ r2 ∈ b, r = r1 ++ stripKey r2 := by
  intro a
  induction a with
  | nil =>
    intro b r h
    simp only [joinRows] at h
    cases h
  | cons r1 t ih =>
    intro b r h
    simp only [joinRows] at h
    rcases List.mem_append.mp h with h' | h'
    · obtain ⟨r2, hr2, rfl⟩ := List.mem_map.mp h'
      exact ⟨r1, List.mem_cons_self _ _, r2, (List.mem_filter.mp hr2).1, rfl⟩
    · obtain ⟨ra, hra, rb, hrb, heq⟩ := ih h'
      exact ⟨ra, List.mem_cons_of_mem _ hra, rb, hrb, heq⟩

theorem numNaRow_append_strip {r1 r2 : Row} (h1 : NumNaRow r1) (h2 : NumNaRow r2) :
    NumNaRow (r1 ++ stripKey r2) := by
  intro p hp
  rcases List.mem_append.mp hp with h | h
  · exact h1 p h
  · exact h2 p (List.mem_filter.mp h).1

theorem numRow_normRow {df : DataFrame} {cs : List String} {r : Row}
    (h : NumRow r) : NumRow (normRow df cs r) := by
  intro p hp
  obtain ⟨p0, hp0, rfl⟩ := List.mem_map.mp hp
  rcases h p0 hp0 with hk | ⟨q, hq⟩
  · left; exact hk
  · right
    unfold normCell
    by_cases hin : p0.1 ∈ cs
    · rw [if_pos hin, hq]
      exact ⟨_, rfl⟩
    · rw [if_neg hin, hq]
      exact ⟨q, rfl⟩

theorem numRow_finalCoerceRow {r : Row} (h : NumRow r) : NumRow (finalCoerceRow r) := by
  intro p hp
  obtain ⟨p0, hp0, rfl⟩ := List.mem_map.mp hp
  rcases h p0 hp0 with hk | ⟨q, hq⟩
  · left; exact hk
  · right
    unfold finalCell
    by_cases hc : p0.1 = "CDSCODE"
    · rw [if_pos hc, hq]
      exact ⟨q, rfl⟩
    · rw [if_neg hc, hq]
      exact ⟨q, rfl⟩

/-- A successful `load_data` run factors into successful stages. -/
theorem load_data_ok_dest {ds : Datasets} {df : DataFrame}
    (h : load_data (Except.ok ds) = some df) :
    ∃ ds1 ds2 m m2,
      clean_datasets ds = Except.ok ds1
      ∧ convert_data_types (handle_missing_values ds1) = Except.ok ds2
      ∧ merge_datasets ds2 = Except.ok m
      ∧ normalize_columns m normTargetCols = Except.ok m2
      ∧ df = finalCoerce m2 := by
  unfold load_data at h
  dsimp only at h
  cases hrp : runPipeline ds with
  | error e =>
    rw [hrp] at h
    simp at h
  | ok df0 =>
    rw [hrp] at h
    dsimp only at h
    unfold runPipeline at hrp
    cases hc : clean_datasets ds with
    | error e => rw [hc] at hrp; simp at hrp
    | ok ds1 =>
      rw [hc] at hrp
      dsimp only at hrp
      cases hv : convert_data_types (handle_missing_values ds1) with
      | error e => rw [hv] at hrp; simp at hrp
      | ok ds2 =>
        rw [hv] at hrp
        dsimp only at hrp
        cases hm : merge_datasets ds2 with
        | error e => rw [hm] at hrp; simp at hrp
        | ok m =>
          rw [hm] at hrp
          dsimp only at hrp
          cases hn : normalize_columns m normTargetCols with
          | error e => rw [hn] at hrp; simp at hrp
          | ok m2 =>
            rw [hn] at hrp
            dsimp only at hrp
            have hdf0 : finalCoerce m2 = df0 := Except.ok.inj hrp
            split at h
            · simp at h
            · split at h
              · have hdf : df0 = df := Option.some.inj h
                exact ⟨ds1, ds2, m, m2, rfl, hv, hm, hn, by rw [← hdf, ← hdf0]⟩
              · simp at h

/-- C1 amended: on a successful run whose raw expenditure and
socioeconomic tables carry (at most) their documented columns — the
other three tables are reduced to fixed allow-lists regardless — every
cell of the returned table outside the `CDSCODE` column holds a numeric,
non-missing value.  (Without the schema hypotheses the claim fails: an
extra non-numeric expenditure column survives reduction, is re-coerced
to a missing marker by the final loop of lines 296-299 *after* the
`dropna` gate, and its row is not dropped — see the counterexample.) -/
theorem C1_amended_rows_numeric (ds : Datasets) (df : DataFrame)
    (hexp : ∀ r ∈ ds.expenditure.rows, ∀ p ∈ r, p.1 ∈ expRawCols)
    (hsoc : ∀ r ∈ ds.socioeconomic.rows, ∀ p ∈ r, p.1 ∈ socioRawCols)
    (h : load_data (Except.ok ds) = some df) :
    ∀ r ∈ df.rows, ∀ p ∈ r, p.1 = "CDSCODE" ∨ ∃ q : ℚ, p.2 = Val.num q := by
  obtain ⟨ds1, ds2, m, m2, hc, hv, hm, hn, hdf⟩ := load_data_ok_dest h
  obtain ⟨hce, hcs, hct, hcc, hcso⟩ := clean_ok_dest hc
  obtain ⟨hve, hvs, hvt, hvc, hvso⟩ := convert_ok_dest hv
  -- key sets of the tables entering `convert_data_types`
  have hkeys_sal : ∀ r ∈ (handle_missing_values ds1).salary.rows, ∀ p ∈ r, p.1 ∈ salaryCols := by
    intro r hr
    have hr' : r ∈ ds1.salary.rows.map (fillRow ds1.salary) := hr
    obtain ⟨r0, hr0, rfl⟩ := List.mem_map.mp hr'
    rw [hcs] at hr0
    have hr0' : r0 ∈ ds.salary.rows.map (selectRow salaryCols) := hr0
    obtain ⟨r1, hr1, rfl⟩ := List.mem_map.mp hr0'
    exact keys_mapRow (fillCell ds1.salary) (fun p hp => mem_selectRow_key hp)
  have hkeys_test : ∀ r ∈ (handle_missing_values ds1).test_scores.rows,
      ∀ p ∈ r, p.1 ∈ testScoreCols := by
    intro r hr
    have hr' : r ∈ ds1.test_scores.rows := hr
    rw [hct] at hr'
    have hr'' : r ∈ (ds.test_scores.rows.map (selectRow testScoreCols)).map
        (replaceRow tsMissingTokens Val.na) := hr'
    obtain ⟨r0, hr0, rfl⟩ := List.mem_map.mp hr''
    obtain ⟨r1, hr1, rfl⟩ := List.mem_map.mp hr0
    exact keys_mapRow (fun _ v => replaceCell tsMissingTokens Val.na v)
      (fun p hp => mem_selectRow_key hp)
  have hkeys_ca : ∀ r ∈ (handle_missing_values ds1).chronic_absence.rows,
      ∀ p ∈ r, p.1 ∈ chronicCols := by
    intro r hr
    have hr' : r ∈ ds1.chronic_absence.rows := hr
    rw [hcc] at hr'
    have hr'' : r ∈ ds.chronic_absence.rows.map (selectRow chronicCols) := hr'
    obtain ⟨r0, hr0, rfl⟩ := List.mem_map.mp hr''
    exact fun p hp => mem_selectRow_key hp
  have hkeys_soc : ∀ r ∈ (handle_missing_values ds1).socioeconomic.rows,
      ∀ p ∈ r, p.1 ∈ socioRawCols := by
    intro r hr
    have hr' : r ∈ ds1.socioeconomic.rows.map (replaceRow [Val.na] (Val.num 0)) := hr
    obtain ⟨r0, hr0, rfl⟩ := List.mem_map.mp hr'
    rw [hcso] at hr0
    exact keys_mapRow (fun _ v => replaceCell [Val.na] (Val.num 0) v) (hsoc r0 hr0)
  have hkept : ∀ k ∈ expRawCols, k ∉ expDropCols → k ∈ expKeptCols := by decide
  have hkeys_exp : ∀ r ∈ (handle_missing_values ds1).expenditure.rows,
      ∀ p ∈ r, p.1 ∈ expKeptCols := by
    intro r hr
    have hr' : r ∈ ds1.expenditure.rows.map (fillRow ds1.expenditure) := hr
    obtain ⟨r0, hr0, rfl⟩ := List.mem_map.mp hr'
    rw [hce] at hr0
    have hr0' : r0 ∈ ds.expenditure.rows.map (dropRowCols expDropCols) := hr0
    obtain ⟨r1, hr1, rfl⟩ := List.mem_map.mp hr0'
    refine keys_mapRow (fillCell ds1.expenditure) ?_
    intro p hp
    obtain ⟨hpmem, hpnot⟩ := mem_dropRowCols hp
    exact hkept p.1 (hexp r1 hr1 p hpmem) hpnot
  -- every table entering the merge satisfies the num-or-missing invariant
  have hNN_exp : ∀ r ∈ ds2.expenditure.rows, NumNaRow r := by
    intro r hr
    rw [hve] at hr
    exact numNaRow_in_coerced expNumCols expKeptCols _ hkeys_exp (by decide) r hr
  have hNN_sal : ∀ r ∈ ds2.salary.rows, NumNaRow r := by
    intro r hr
    rw [hvs] at hr
    exact numNaRow_in_coerced salaryNumCols salaryCols _ hkeys_sal (by decide) r hr
  have hNN_test : ∀ r ∈ ds2.test_scores.rows, NumNaRow r := by
    intro r hr
    rw [hvt] at hr
    exact numNaRow_in_coerced testNumCols testScoreCols _ hkeys_test (by decide) r hr
  have hNN_ca : ∀ r ∈ ds2.chronic_absence.rows, NumNaRow r := by
    intro r hr
    rw [hvc] at hr
    exact numNaRow_in_coerced chronicNumCols chronicCols _ hkeys_ca (by decide) r hr
  have hNN_soc : ∀ r ∈ ds2.socioeconomic.rows, NumNaRow r := by
    intro r hr
    rw [hvso] at hr
    exact numNaRow_in_coerced ["PERSD"] socioRawCols _ hkeys_soc (by decide) r hr
  -- the invariant is preserved by each inner join
  have hJ1 : ∀ r ∈ joinRows ds2.expenditure.rows ds2.salary.rows, NumNaRow r := by
    intro r hr
    obtain ⟨r1, hr1, r2, hr2, rfl⟩ := mem_joinRows_elim hr
    exact numNaRow_append_strip (hNN_exp r1 hr1) (hNN_sal r2 hr2)
  have hJ2 : ∀ r ∈ joinRows (joinRows ds2.expenditure.rows ds2.salary.rows)
      ds2.test_scores.rows, NumNaRow r := by
    intro r hr
    obtain ⟨r1, hr1, r2, hr2, rfl⟩ := mem_joinRows_elim hr
    exact numNaRow_append_strip (hJ1 r1 hr1) (hNN_test r2 hr2)
  have hJ3 : ∀ r ∈ joinRows (joinRows (joinRows ds2.expenditure.rows ds2.salary.rows)
      ds2.test_scores.rows) ds2.socioeconomic.rows, NumNaRow r := by
    intro r hr
    obtain ⟨r1, hr1, r2, hr2, rfl⟩ := mem_joinRows_elim hr
    exact numNaRow_append_strip (hJ2 r1 hr1) (hNN_soc r2 hr2)
  have hJ4 : ∀ r ∈ joinRows (joinRows (joinRows (joinRows ds2.expenditure.rows
      ds2.salary.rows) ds2.test_scores.rows) ds2.socioeconomic.rows)
      ds2.chronic_absence.rows, NumNaRow r := by
    intro r hr
    obtain ⟨r1, hr1, r2, hr2, rfl⟩ := mem_joinRows_elim hr
    exact numNaRow_append_strip (hJ3 r1 hr1) (hNN_ca r2 hr2)
  -- after `dropna`, missing cells are gone: the rows are fully numeric
  have hmdest := merge_ok_dest hm
  have hM : ∀ r ∈ m.rows, NumRow r := by
    intro r hr
    rw [hmdest] at hr
    have hcomp := dropna_complete hr
    have hmem4 : r ∈ joinRows (joinRows (joinRows (joinRows ds2.expenditure.rows
        ds2.salary.rows) ds2.test_scores.rows) ds2.socioeconomic.rows)
        ds2.chronic_absence.rows := (List.mem_filter.mp hr).1
    intro p hp
    rcases hJ4 r hmem4 p hp with hk | hv' | ⟨q, hq⟩
    · left; exact hk
    · exact absurd hv' (hcomp p hp)
    · right; exact ⟨q, hq⟩
  -- normalization and the final coercion preserve numeric rows
  have hM2 : ∀ r ∈ m2.rows, NumRow r := by
    intro r hr
    rw [(normalize_ok_dest hn).1] at hr
    have hr' : r ∈ m.rows.map (normRow m normTargetCols) := hr
    obtain ⟨r0, hr0, rfl⟩ := List.mem_map.mp hr'
    exact numRow_normRow (hM r0 hr0)
  intro r hr p hp
  rw [hdf] at hr
  have hr' : r ∈ m2.rows.map finalCoerceRow := hr
  obtain ⟨r0, hr0, rfl⟩ := List.mem_map.mp hr'
  exact numRow_finalCoerceRow (hM2 r0 hr0) p hp

/-- A run whose expenditure table carries one extra textual column
`SNAME` beyond the documented schema.  Cleaning keeps it (the drop is a
deny-list), the join and the `dropna` gate pass it through unchanged,
and the final coercion loop of lines 296-299 turns it into a missing
marker after the gate has already run. -/
def datasetsC1bad : Datasets :=
  ⟨⟨["CDSCODE", "SARCYEAR", "C", "D", "S", "STEXP", "DSAL", "STSAL", "SNAME"],
    [[("CDSCODE", Val.str "01612596097927"), ("SARCYEAR", Val.num 2019),
      ("C", Val.num 1), ("D", Val.num 2), ("S", Val.num 3), ("STEXP", Val.num 4),
      ("DSAL", Val.num 75924), ("STSAL", Val.num 66478),
      ("SNAME", Val.str "Alameda High")]]⟩,
   ⟨["CDSCODE", "BTCHSAL", "MTCHSAL", "HTCHSAL"],
    [[("CDSCODE", Val.str "01612596097927"), ("BTCHSAL", Val.num 46553),
      ("MTCHSAL", Val.num 72824), ("HTCHSAL", Val.num 94146)]]⟩,
   ⟨["CDSCODE", "SELA_Y2", "SMATH_Y2", "DELA_Y2", "DMATH_Y2"],
    [[("CDSCODE", Val.str "01612596097927"), ("SELA_Y2", Val.num 48),
      ("SMATH_Y2", Val.num 41), ("DELA_Y2", Val.num 3), ("DMATH_Y2", Val.num 2)]]⟩,
   ⟨["CDSCODE", "RALL", "REL", "RSED"],
    [[("CDSCODE", Val.str "01612596097927"), ("RALL", Val.num 12),
      ("REL", Val.num 15), ("RSED", Val.num 14)]]⟩,
   ⟨["CDSCODE", "PERSD"],
    [[("CDSCODE", Val.str "01612596097927"), ("PERSD", Val.num 55)]]⟩⟩

/-- The table returned by `load_data` on `datasetsC1bad`. -/
def outC1bad : DataFrame := (load_data (Except.ok datasetsC1bad)).getD ⟨[], []⟩

/-- C1 counterexample: on `datasetsC1bad` the pipeline *does* return a
merged table, but that table's `SNAME` cell is the missing marker — the
final `to_numeric` loop (lines 296-299) runs after the `dropna` gate
(line 236), so the row holding the unparseable value is not dropped and
the returned table violates the claimed invariant. -/
theorem C1_counterexample :
    load_data (Except.ok datasetsC1bad) = some outC1bad
    ∧ dfAnalyticNumeric outC1bad = false :=
  ⟨rfl, by decide⟩

/-- A run with exactly the documented raw schemas and all-numeric data. -/
def datasetsC1ok : Datasets :=
  ⟨⟨["CDSCODE", "SARCYEAR", "C", "D", "S", "STEXP", "DSAL", "STSAL"],
    [[("CDSCODE", Val.str "01612596097927"), ("SARCYEAR", Val.num 2019),
      ("C", Val.num 1), ("D", Val.num 2), ("S", Val.num 3), ("STEXP", Val.num 4),
      ("DSAL", Val.num 75924), ("STSAL", Val.num 66478)]]⟩,
   ⟨["CDSCODE", "BTCHSAL", "MTCHSAL", "HTCHSAL"],
    [[("CDSCODE", Val.str "01612596097927"), ("BTCHSAL", Val.num 46553),
      ("MTCHSAL", Val.num 72824), ("HTCHSAL", Val.num 94146)]]⟩,
   ⟨["CDSCODE", "SELA_Y2", "SMATH_Y2", "DELA_Y2", "DMATH_Y2"],
    [[("CDSCODE", Val.str "01612596097927"), ("SELA_Y2", Val.num 48),
      ("SMATH_Y2", Val.num 41), ("DELA_Y2", Val.num 3), ("DMATH_Y2", Val.num 2)]]⟩,
   ⟨["CDSCODE", "RALL", "REL", "RSED"],
    [[("CDSCODE", Val.str "01612596097927"), ("RALL", Val.num 12),
      ("REL", Val.num 15), ("RSED", Val.num 14)]]⟩,
   ⟨["CDSCODE", "PERSD"],
    [[("CDSCODE", Val.str "01612596097927"), ("PERSD", Val.num 55)]]⟩⟩

/-- The table returned by `load_data` on `datasetsC1ok`. -/
def outC1ok : DataFrame := (load_data (Except.ok datasetsC1ok)).getD ⟨[], []⟩

/-- The first row of that table. -/
def rowC1ok : Row := outC1ok.rows.headD []

/-- Its second cell (the `DSAL` column). -/
def pairC1ok : String × Val := rowC1ok.getD 1 ("CDSCODE", Val.na)

/-- Witness for C1 (amended): on the documented-schema run, a concrete
non-identifier cell of the returned table is numeric. -/
theorem C1_amended_witness :
    pairC1ok.1 = "CDSCODE" ∨ ∃ q : ℚ, pairC1ok.2 = Val.num q :=
  C1_amended_rows_numeric datasetsC1ok outC1ok (by decide) (by decide) rfl
    rowC1ok (headD_mem [] (by decide)) pairC1ok (getD_mem rowC1ok 1 ("CDSCODE", Val.na) (by decide))

/-! ### C4 — join cardinalities -/

theorem filter_key_length_le_one {b : List Row} (hb : (b.map keyOf).Nodup) (k : Option Val) :
    (b.filter (fun r2 => decide (keyOf r2 = k))).length ≤ 1 := by
  induction b with
  | nil => simp
  | cons r2 t ih =>
    rw [List.map_cons, List.nodup_cons] at hb
    by_cases hk : keyOf r2 = k
    · have htail : t.filter (fun r => decide (keyOf r = k)) = [] := by
        rw [List.filter_eq_nil_iff]
        intro r hr
        simp only [decide_eq_true_eq]
        intro hkr
        exact hb.1 (by rw [hk, ← hkr]; exact List.mem_map_of_mem keyOf hr)
      simp [List.filter_cons, hk, htail]
    · simp only [List.filter_cons, hk, decide_eq_true_eq, if_false]
      exact ih hb.2

theorem joinRows_length_le_left {b : List Row} (hb : (b.map keyOf).Nodup) :
    ∀ a : List Row, (joinRows a b).length ≤ a.length := by
  intro a
  induction a with
  | nil => simp [joinRows]
  | cons r1 t ih =>
    simp only [joinRows, List.length_append, List.length_map, List.length_cons]
    have h1 := filter_key_length_le_one hb (keyOf r1)
    omega

theorem length_filter_add_not (p : Row → Bool) (l : List Row) :
    (l.filter p).length + (l.filter (fun x => !p x)).length = l.length := by
  induction l with
  | nil => rfl
  | cons x t ih =>
    cases hx : p x <;> simp [List.filter_cons, hx] <;> omega

theorem filter_filter_of_imp {p q : Row → Bool} (h : ∀ x, p x = true → q x = true) :
    ∀ l : List Row, (l.filter q).filter p = l.filter p := by
  intro l
  induction l with
  | nil => rfl
  | cons x t ih =>
    cases hq : q x with
    | true =>
      cases hp : p x with
      | true => simp [List.filter_cons, hq, hp, ih]
      | false => simp [List.filter_cons, hq, hp, ih]
    | false =>
      have hp : p x = false := by
        cases hpx : p x
        · rfl
        · exact absurd (h x hpx) (by simp [hq])
      simp [List.filter_cons, hq, hp, ih]

theorem joinRows_filter_out_key {k : Option Val} :
    ∀ (t b : List Row), (∀ rt ∈ t, keyOf rt ≠ k) →
    joinRows t (b.filter (fun r2 => !(decide (keyOf r2 = k)))) = joinRows t b := by
  intro t
  induction t with
  | nil => intro b _; rfl
  | cons rt tt ih =>
    intro b ht
    simp only [joinRows]
    have hff : (b.filter (fun r2 => !(decide (keyOf r2 = k)))).filter
        (fun r2 => decide (keyOf r2 = keyOf rt))
        = b.filter (fun r2 => decide (keyOf r2 = keyOf rt)) := by
      apply filter_filter_of_imp
      intro x hx
      have hkx : keyOf x = keyOf rt := of_decide_eq_true hx
      have hne : ¬ (keyOf x = k) := by
        rw [hkx]
        exact ht rt (List.mem_cons_self _ _)
      simp [hne]
    rw [hff, ih b (fun r hr => ht r (List.mem_cons_of_mem _ hr))]

theorem joinRows_length_le_right : ∀ (a b : List Row), ((a.map keyOf)).Nodup →
    (joinRows a b).length ≤ b.length := by
  intro a
  induction a with
  | nil => intro b _; simp [joinRows]
  | cons r1 t ih =>
    intro b ha
    rw [List.map_cons, List.nodup_cons] at ha
    have hnk : ∀ rt ∈ t, keyOf rt ≠ keyOf r1 := by
      intro rt hrt heq
      exact ha.1 (by rw [← heq]; exact List.mem_map_of_mem keyOf hrt)
    have hjt : joinRows t (b.filter (fun r2 => !(decide (keyOf r2 = keyOf r1)))) = joinRows t b :=
      joinRows_filter_out_key t b hnk
    have hle : (joinRows t b).length
        ≤ (b.filter (fun r2 => !(decide (keyOf r2 = keyOf r1)))).length := by
      rw [← hjt]
      exact ih _ ha.2
    have hsum := length_filter_add_not (fun r2 => decide (keyOf r2 = keyOf r1)) b
    simp only [joinRows, List.length_append, List.length_map]
    omega

theorem joinRows_keys_sublist {b : List Row} (hb : (b.map keyOf).Nodup) :
    ∀ a : List Row, ((joinRows a b).map keyOf).Sublist (a.map keyOf) := by
  intro a
  induction a with
  | nil => simp [joinRows]
  | cons r1 t ih =>
    simp only [joinRows, List.map_append, List.map_map, List.map_cons]
    have hconst : (b.filter (fun r2 => decide (keyOf r2 = keyOf r1))).map
        (keyOf ∘ fun r2 => r1 ++ stripKey r2)
        = (b.filter (fun r2 => decide (keyOf r2 = keyOf r1))).map (fun _ => keyOf r1) := by
      apply List.map_congr_left
      intro r2 hr2
      simp only [Function.comp_apply]
      exact keyOf_append_strip r1 r2
    rw [hconst]
    have hlen := filter_key_length_le_one hb (keyOf r1)
    cases hfl : b.filter (fun r2 => decide (keyOf r2 = keyOf r1)) with
    | nil =>
      simp only [List.map_nil, List.nil_append]
      exact ih.cons _
    | cons x xs =>
      cases xs with
      | nil =>
        simp only [List.map_cons, List.map_nil, List.cons_append, List.nil_append]
        exact ih.cons₂ _
      | cons y ys =>
        rw [hfl] at hlen
        simp at hlen

theorem joinRows_keys_nodup {a b : List Row} (ha : (a.map keyOf).Nodup)
    (hb : (b.map keyOf).Nodup) : ((joinRows a b).map keyOf).Nodup :=
  List.Nodup.sublist (joinRows_keys_sublist hb a) ha

/-- C4 amended: provided every table entering `merge_datasets` has
pairwise-distinct `CDSCODE` keys — the spec's own data-model assumption
("unique per school per table"); without it an inner join can multiply
rows, see the counterexample — the row count is non-increasing through
each of the four inner joins and through the final `dropna`, and the
final count is at most the count of each (hence of the smallest) input
table. -/
theorem C4_amended_monotone_rowcounts (ds : Datasets) (df : DataFrame)
    (h : merge_datasets ds = Except.ok df)
    (h1 : (ds.expenditure.rows.map keyOf).Nodup)
    (h2 : (ds.salary.rows.map keyOf).Nodup)
    (h3 : (ds.test_scores.rows.map keyOf).Nodup)
    (h4 : (ds.socioeconomic.rows.map keyOf).Nodup)
    (h5 : (ds.chronic_absence.rows.map keyOf).Nodup) :
    ((mergedRows1 ds).length ≤ ds.expenditure.rows.length
      ∧ (mergedRows2 ds).length ≤ (mergedRows1 ds).length
      ∧ (mergedRows3 ds).length ≤ (mergedRows2 ds).length
      ∧ (mergedRows4 ds).length ≤ (mergedRows3 ds).length
      ∧ df.rows.length ≤ (mergedRows4 ds).length)
    ∧ (df.rows.length ≤ ds.expenditure.rows.length
      ∧ df.rows.length ≤ ds.salary.rows.length
      ∧ df.rows.length ≤ ds.test_scores.rows.length
      ∧ df.rows.length ≤ ds.socioeconomic.rows.length
      ∧ df.rows.length ≤ ds.chronic_absence.rows.length) := by
  have hdfrows : df.rows = (mergedRows4 ds).filter rowComplete := by
    rw [merge_ok_dest h]
    rfl
  have ha1 : (mergedRows1 ds).length ≤ ds.expenditure.rows.length :=
    joinRows_length_le_left h2 _
  have ha2 : (mergedRows2 ds).length ≤ (mergedRows1 ds).length :=
    joinRows_length_le_left h3 _
  have ha3 : (mergedRows3 ds).length ≤ (mergedRows2 ds).length :=
    joinRows_length_le_left h4 _
  have ha4 : (mergedRows4 ds).length ≤ (mergedRows3 ds).length :=
    joinRows_length_le_left h5 _
  have ha5 : df.rows.length ≤ (mergedRows4 ds).length := by
    rw [hdfrows]
    exact List.length_filter_le _ _
  have hn1 : ((mergedRows1 ds).map keyOf).Nodup := joinRows_keys_nodup h1 h2
  have hn2 : ((mergedRows2 ds).map keyOf).Nodup := joinRows_keys_nodup hn1 h3
  have hn3 : ((mergedRows3 ds).map keyOf).Nodup := joinRows_keys_nodup hn2 h4
  have hb2 : (mergedRows1 ds).length ≤ ds.salary.rows.length :=
    joinRows_length_le_right _ _ h1
  have hb3 : (mergedRows2 ds).length ≤ ds.test_scores.rows.length :=
    joinRows_length_le_right _ _ hn1
  have hb4 : (mergedRows3 ds).length ≤ ds.socioeconomic.rows.length :=
    joinRows_length_le_right _ _ hn2
  have hb5 : (mergedRows4 ds).length ≤ ds.chronic_absence.rows.length :=
    joinRows_length_le_right _ _ hn3
  refine ⟨⟨ha1, ha2, ha3, ha4, ha5⟩, ?_, ?_, ?_, ?_, ?_⟩ <;> omega

/-- A merge input whose expenditure and salary tables both hold two rows
with the same `CDSCODE`: the first inner join yields 2 × 2 = 4 rows. -/
def datasetsC4dup : Datasets :=
  ⟨⟨["CDSCODE", "DSAL", "STSAL"],
    [[("CDSCODE", Val.str "X"), ("DSAL", Val.num 1), ("STSAL", Val.num 2)],
     [("CDSCODE", Val.str "X"), ("DSAL", Val.num 3), ("STSAL", Val.num 4)]]⟩,
   ⟨["CDSCODE", "BTCHSAL", "MTCHSAL", "HTCHSAL"],
    [[("CDSCODE", Val.str "X"), ("BTCHSAL", Val.num 5), ("MTCHSAL", Val.num 6),
      ("HTCHSAL", Val.num 7)],
     [("CDSCODE", Val.str "X"), ("BTCHSAL", Val.num 8), ("MTCHSAL", Val.num 9),
      ("HTCHSAL", Val.num 10)]]⟩,
   ⟨["CDSCODE", "SELA_Y2", "SMATH_Y2", "DELA_Y2", "DMATH_Y2"],
    [[("CDSCODE", Val.str "X"), ("SELA_Y2", Val.num 11), ("SMATH_Y2", Val.num 12),
      ("DELA_Y2", Val.num 13), ("DMATH_Y2", Val.num 14)]]⟩,
   ⟨["CDSCODE", "RALL", "REL", "RSED"],
    [[("CDSCODE", Val.str "X"), ("RALL", Val.num 15), ("REL", Val.num 16),
      ("RSED", Val.num 17)]]⟩,
   ⟨["CDSCODE", "PERSD"],
    [[("CDSCODE", Val.str "X"), ("PERSD", Val.num 18)]]⟩⟩

/-- C4 counterexample: with duplicate join keys (which nothing in the
pipeline rules out) the first inner join *grows* from 2 rows to 4, and
the final merged table has 4 rows although the smallest input table has
only 1 — both halves of the claimed invariant fail. -/
theorem C4_counterexample :
    (mergedRows1 datasetsC4dup).length = 4
    ∧ datasetsC4dup.expenditure.rows.length = 2
    ∧ datasetsC4dup.salary.rows.length = 2
    ∧ (okFrame (merge_datasets datasetsC4dup)).rows.length = 4
    ∧ datasetsC4dup.test_scores.rows.length = 1 := by decide

/-- A merge input with unique keys throughout. -/
def datasetsC4u : Datasets :=
  ⟨⟨["CDSCODE", "DSAL", "STSAL"],
    [[("CDSCODE", Val.str "A"), ("DSAL", Val.num 1), ("STSAL", Val.num 2)],
     [("CDSCODE", Val.str "B"), ("DSAL", Val.num 3), ("STSAL", Val.num 4)]]⟩,
   ⟨["CDSCODE", "BTCHSAL", "MTCHSAL", "HTCHSAL"],
    [[("CDSCODE", Val.str "A"), ("BTCHSAL", Val.num 5), ("MTCHSAL", Val.num 6),
      ("HTCHSAL", Val.num 7)]]⟩,
   ⟨["CDSCODE", "SELA_Y2", "SMATH_Y2", "DELA_Y2", "DMATH_Y2"],
    [[("CDSCODE", Val.str "A"), ("SELA_Y2", Val.num 11), ("SMATH_Y2", Val.num 12),
      ("DELA_Y2", Val.num 13), ("DMATH_Y2", Val.num 14)]]⟩,
   ⟨["CDSCODE", "RALL", "REL", "RSED"],
    [[("CDSCODE", Val.str "A"), ("RALL", Val.num 15), ("REL", Val.num 16),
      ("RSED", Val.num 17)]]⟩,
   ⟨["CDSCODE", "PERSD"],
    [[("CDSCODE", Val.str "A"), ("PERSD", Val.num 18)]]⟩⟩

/-- Witness for C4 (amended): with unique keys, the first join does not
grow the expenditure table. -/
theorem C4_amended_witness :
    (mergedRows1 datasetsC4u).length ≤ datasetsC4u.expenditure.rows.length :=
  (C4_amended_monotone_rowcounts datasetsC4u (okFrame (merge_datasets datasetsC4u)) rfl
    (by decide) (by decide) (by decide) (by decide) (by decide)).1.1

end PSD
